import Mathlib

/-
Verification development for the content-generator core of a CLI LLM client.

Shallow embedding of:
- packages/core/src/core/contentGenerator.ts  (factory: config resolution and
  provider dispatch)
- packages/core/src/core/openaiProvider.ts    (chat-completion adapter)
- packages/core/src/core/claudeProvider.ts    (chat-completion adapter)
- packages/core/src/core/grokProvider.ts      (stub adapter)
- packages/core/src/core/googleGenaiProvider.ts (primary adapter)
- one further OpenAI-compatible adapter file (Content[]-typed translator),
  modelled under the Compat namespace.

JavaScript conventions are embedded explicitly: optional values are Option,
the `x || y` fallback on strings treats both undefined and the empty string
as falsy, and `process.env` lookups are fields of an explicit Env record.
Async functions that can throw are embedded as Except String; the backend
network call inside an adapter operation is an oracle, passed as an explicit
argument holding the backend response.
-/

namespace GeminiCLI

/-! ## JavaScript value helpers -/

/-- Embeds `process.env.X || undefined`: an empty-string environment value is
normalized to absent. -/
def envOr (v : Option String) : Option String :=
  match v with
  | some s => if s = "" then none else some s
  | none => none

/-- JS `a || b` on possibly-absent strings: `a` wins unless it is undefined
or the empty string. -/
def jsOrStr (a b : Option String) : Option String :=
  match a with
  | some s => if s = "" then b else some s
  | none => b

/-- JS truthiness of a possibly-absent string (`!x` is the negation). -/
def truthyStr (o : Option String) : Bool :=
  match o with
  | some s => !(s = "")
  | none => false

/-- JS `a || d` where `d` is a present default string. -/
def jsOrDefault (o : Option String) (d : String) : String :=
  match o with
  | some s => if s = "" then d else s
  | none => d

/-! ## Enumerations (contentGenerator.ts) -/

/-- Embeds `enum AuthType` from contentGenerator.ts. -/
inductive AuthType where
  | LOGIN_WITH_GOOGLE
  | USE_GEMINI
  | USE_VERTEX_AI
  | USE_OPENAI
  | USE_CLAUDE
  | USE_GROK
  | USE_DOUBAO
  | USE_QWEN
  | USE_KIMI
  | USE_DEEPSEEK
  | CLOUD_SHELL
deriving DecidableEq, Repr

/-- The string values of `enum Provider` from contentGenerator.ts: the closed
enumeration of provider tags the factory dispatches on. At runtime the
dispatch compares strings, so the provider tag is embedded as a String. -/
def knownProviderTags : List String :=
  ["gemini", "openai", "claude", "grok", "doubao", "qwen", "kimi", "deepseek"]

/-! ## Environment and configuration -/

/-- The `process.env` variables read by the factory and the adapters.
Each field is the raw environment value (absent or a string, possibly empty). -/
structure Env where
  GEMINI_API_KEY : Option String := none
  GOOGLE_API_KEY : Option String := none
  GOOGLE_CLOUD_PROJECT : Option String := none
  GOOGLE_CLOUD_LOCATION : Option String := none
  OPENAI_API_KEY : Option String := none
  ANTHROPIC_API_KEY : Option String := none
  GROK_API_KEY : Option String := none
  DOUBAO_API_KEY : Option String := none
  QWEN_API_KEY : Option String := none
  KIMI_API_KEY : Option String := none
  DEEPSEEK_API_KEY : Option String := none
deriving DecidableEq, Repr

/-- Embeds `type ContentGeneratorConfig` from contentGenerator.ts. The provider tag
is a String at runtime (the TS enum erases to its string values). -/
structure ContentGeneratorConfig where
  model : String
  provider : Option String := none
  apiKey : Option String := none
  vertexai : Option Bool := none
  authType : Option AuthType := none
  proxy : Option String := none
deriving DecidableEq, Repr

/-- The constant `DEFAULT_GEMINI_MODEL` is imported from config/models.ts, which is not
part of this core; no claim depends on its exact value, only on its use as
the fallback model id. -/
def DEFAULT_GEMINI_MODEL : String := "gemini-2.5-pro"

/-- Embeds `createContentGeneratorConfig(config, authType)` from contentGenerator.ts.
`configModel` embeds `config.getModel()` and `configProxy` embeds
`config.getProxy()`. The source reads all eleven env keys into locals up
front (each as `process.env.X || undefined`, i.e. `envOr`) and then runs a
chain of `if (authType === A && key) return ...` tests; since every test is
guarded by a distinct authType value the chain is a dispatch on `authType`
with a per-mode key-presence test, embedded here as a match. The
`getEffectiveModel` call in the USE_GEMINI branch discards its result and
does not affect the returned config, so it has no embedding. The function
has no throwing path: it always returns a config. -/
def createContentGeneratorConfig (env : Env) (configModel : Option String)
    (configProxy : Option String) (authType : Option AuthType) :
    ContentGeneratorConfig :=
  let effectiveModel := jsOrDefault configModel DEFAULT_GEMINI_MODEL
  let base : ContentGeneratorConfig :=
    { model := effectiveModel, authType := authType, proxy := configProxy }
  match authType with
  | some .LOGIN_WITH_GOOGLE => base
  | some .CLOUD_SHELL => base
  | some .USE_GEMINI =>
      if (envOr env.GEMINI_API_KEY).isSome then
        { base with apiKey := envOr env.GEMINI_API_KEY, vertexai := some false }
      else base
  | some .USE_OPENAI =>
      if (envOr env.OPENAI_API_KEY).isSome then
        { base with apiKey := envOr env.OPENAI_API_KEY }
      else base
  | some .USE_CLAUDE =>
      if (envOr env.ANTHROPIC_API_KEY).isSome then
        { base with apiKey := envOr env.ANTHROPIC_API_KEY }
      else base
  | some .USE_GROK =>
      if (envOr env.GROK_API_KEY).isSome then
        { base with apiKey := envOr env.GROK_API_KEY }
      else base
  | some .USE_DOUBAO =>
      if (envOr env.DOUBAO_API_KEY).isSome then
        { base with apiKey := envOr env.DOUBAO_API_KEY }
      else base
  | some .USE_QWEN =>
      if (envOr env.QWEN_API_KEY).isSome then
        { base with apiKey := envOr env.QWEN_API_KEY }
      else base
  | some .USE_KIMI =>
      if (envOr env.KIMI_API_KEY).isSome then
        { base with apiKey := envOr env.KIMI_API_KEY }
      else base
  | some .USE_DEEPSEEK =>
      if (envOr env.DEEPSEEK_API_KEY).isSome then
        { base with apiKey := envOr env.DEEPSEEK_API_KEY }
      else base
  | some .USE_VERTEX_AI =>
      if (envOr env.GOOGLE_API_KEY).isSome ∨
         ((envOr env.GOOGLE_CLOUD_PROJECT).isSome ∧
          (envOr env.GOOGLE_CLOUD_LOCATION).isSome) then
        { base with apiKey := envOr env.GOOGLE_API_KEY, vertexai := some true }
      else base
  | none => base

/-! ## Factory dispatch (createContentGenerator) -/

/-- Which constructor the factory's switch delegates to. `codeAssist` is the
external OAuth-backed generator hand-off; the rest name the per-provider
`createProvider` functions the switch calls. -/
inductive Dispatched where
  | codeAssist
  | googleGenai
  | openai
  | claude
  | grok
  | doubao
  | qwen
  | kimi
  | deepseek
deriving DecidableEq, Repr

/-- The dispatch skeleton of `createContentGenerator` from contentGenerator.ts:
`const provider = config.provider ?? Provider.GEMINI;` then a switch over the
closed tag enumeration, whose default throws
`Error creating contentGenerator: Unsupported provider: <tag>`. The switch
itself constructs no client: each case delegates to a provider constructor
(recorded by the `Dispatched` value) and the default throws before any
delegation. -/
def createContentGenerator (config : ContentGeneratorConfig) :
    Except String Dispatched :=
  let provider := config.provider.getD "gemini"
  if provider = "gemini" then
    if config.authType = some AuthType.LOGIN_WITH_GOOGLE ∨
       config.authType = some AuthType.CLOUD_SHELL then
      Except.ok Dispatched.codeAssist
    else
      Except.ok Dispatched.googleGenai
  else if provider = "openai" then Except.ok Dispatched.openai
  else if provider = "claude" then Except.ok Dispatched.claude
  else if provider = "grok" then Except.ok Dispatched.grok
  else if provider = "doubao" then Except.ok Dispatched.doubao
  else if provider = "qwen" then Except.ok Dispatched.qwen
  else if provider = "kimi" then Except.ok Dispatched.kimi
  else if provider = "deepseek" then Except.ok Dispatched.deepseek
  else
    Except.error
      ("Error creating contentGenerator: Unsupported provider: " ++ provider)

/-! ## Canonical content model (the @google/genai request shapes the adapters
consume). A part is a string or an object with an optional text field; a
content item in a list is a string or a Content object with optional role
and parts; the contents argument is undefined, a bare string, one Content
object, or a list of items. -/

inductive PartU where
  | str (s : String)
  | part (text : Option String)
deriving DecidableEq, Repr

structure Content where
  role : Option String := none
  parts : Option (List PartU) := none
deriving DecidableEq, Repr

inductive ContentItem where
  | str (s : String)
  | obj (c : Content)
deriving DecidableEq, Repr

inductive ContentListUnion where
  | undef
  | str (s : String)
  | one (c : Content)
  | list (items : List ContentItem)
deriving DecidableEq, Repr

/-- JS `String(item)` for a content-list item: identity on strings, the
standard object stringification otherwise. -/
def jsString (item : ContentItem) : String :=
  match item with
  | .str s => s
  | .obj _ => "[object Object]"

/-- The per-part text extraction used by openaiProvider.ts and
claudeProvider.ts: `typeof p === 'string' ? p : p.text || ''`. -/
def partText (p : PartU) : String :=
  match p with
  | .str s => s
  | .part t => t.getD ""

/-- Embeds `request.contents || []` at an adapter call site: undefined and
the (falsy) empty string collapse to the empty list; every other value,
including an empty array, is truthy and kept. -/
def contentsOrEmpty (c : ContentListUnion) : ContentListUnion :=
  match c with
  | .undef => .list []
  | .str s => if s = "" then .list [] else .str s
  | x => x

/-- A backend chat message as built by the translators: role (absent when the
source item had none) and flattened text content. -/
structure ChatMessage where
  role : Option String
  content : String
deriving DecidableEq, Repr

/-! ## Canonical response model (the subset of @google/genai response shapes
the adapters produce). -/

structure RespPart where
  text : String
deriving DecidableEq, Repr

structure RespContent where
  role : String
  parts : List RespPart
deriving DecidableEq, Repr

structure Candidate where
  content : RespContent
deriving DecidableEq, Repr

structure UsageMetadata where
  totalTokens : Option Nat := none
deriving DecidableEq, Repr

structure GenerateContentResponse where
  candidates : List Candidate
  usageMetadata : Option UsageMetadata := none
deriving DecidableEq, Repr

/-- The request shape shared by the adapter operations. The generation
options (temperature, top-p, max-output-tokens) are passed through to the
backend call unexamined and no claim concerns them, so they are elided. -/
structure GenerateContentParameters where
  model : String
  contents : ContentListUnion := ContentListUnion.undef
deriving DecidableEq, Repr

structure CountTokensParameters where
  model : String := ""
deriving DecidableEq, Repr

structure CountTokensResponse where
  totalTokens : Nat := 0
deriving DecidableEq, Repr

structure EmbedContentParameters where
  model : String := ""
deriving DecidableEq, Repr

/-- Placeholder for the embedding response: every embedding operation in
scope of the claims rejects before producing one. -/
inductive EmbedContentResponse where
  | mk
deriving DecidableEq, Repr

/-! ## OpenAI backend wire shapes (single-shot completion and stream chunk). -/

structure ChoiceMessage where
  content : Option String := none
deriving DecidableEq, Repr

structure Choice where
  message : Option ChoiceMessage := none
deriving DecidableEq, Repr

structure OpenAIUsage where
  total_tokens : Option Nat := none
deriving DecidableEq, Repr

structure ChatCompletion where
  choices : List Choice := []
  usage : Option OpenAIUsage := none
deriving DecidableEq, Repr

/-- Embeds `completion.choices[0]?.message?.content || ''`. -/
def firstChoiceText (completion : ChatCompletion) : String :=
  match completion.choices.head? with
  | none => ""
  | some ch =>
    match ch.message with
    | none => ""
    | some m => m.content.getD ""

structure DeltaB where
  content : Option String := none
deriving DecidableEq, Repr

structure StreamChoice where
  delta : Option DeltaB := none
deriving DecidableEq, Repr

structure ChunkB where
  choices : List StreamChoice := []
deriving DecidableEq, Repr

/-- Embeds `chunk.choices[0]?.delta?.content || ''`. -/
def streamChunkText (chunk : ChunkB) : String :=
  match chunk.choices.head? with
  | none => ""
  | some ch =>
    match ch.delta with
    | none => ""
    | some d => d.content.getD ""

/-! ## openaiProvider.ts -/

namespace Openai

/-- Embeds `toOpenAIMessages` from openaiProvider.ts, the per-item mapping:
`if (typeof item === 'string' || !('role' in item))` the item becomes a
user message whose content is `String(item)`; otherwise the item's role is
kept and its parts are flattened with `.map(p => typeof p === 'string' ? p :
p.text || '').join('')`. -/
def mapItem (item : ContentItem) : ChatMessage :=
  match item with
  | .str s => { role := some "user", content := s }
  | .obj c =>
    match c.role with
    | none => { role := some "user", content := jsString item }
    | some r =>
        { role := some r,
          content := String.join ((c.parts.getD []).map partText) }

/-- Embeds `toOpenAIMessages(contents)` from openaiProvider.ts:
`if (!contents) return []` (undefined or empty string), a non-empty bare
string becomes one user message, otherwise
`Array.isArray(contents) ? contents : [contents]` is mapped item-wise. -/
def toOpenAIMessages (contents : ContentListUnion) : List ChatMessage :=
  match contents with
  | .undef => []
  | .str s =>
      if s = "" then [] else [{ role := some "user", content := s }]
  | .one c => [mapItem (.obj c)]
  | .list items => items.map mapItem

/-- The generator state created by `createProvider` in openaiProvider.ts:
an OpenAI client constructed from the resolved key. -/
structure Generator where
  apiKey : String
deriving DecidableEq, Repr

/-- Embeds `createProvider` from openaiProvider.ts:
`const apiKey = config.apiKey || process.env.OPENAI_API_KEY;` then
`if (!apiKey) throw new Error('OPENAI_API_KEY is required for OpenAI
provider');` else the client is built and the generator returned. -/
def createProvider (envKey : Option String) (config : ContentGeneratorConfig) :
    Except String Generator :=
  let apiKey := jsOrStr config.apiKey envKey
  if truthyStr apiKey then Except.ok { apiKey := apiKey.getD "" }
  else Except.error "OPENAI_API_KEY is required for OpenAI provider"

/-- Embeds `generateContent` from openaiProvider.ts. The outgoing wire
messages are `toOpenAIMessages (contentsOrEmpty req.contents)`; the backend
call's reply is the `completion` oracle argument. The translation back:
`text = completion.choices[0]?.message?.content || ''`, one candidate with
role "model" and a single text part, and
`usageMetadata = { totalTokens: completion.usage?.total_tokens }`. -/
def generateContent (_req : GenerateContentParameters)
    (completion : ChatCompletion) : GenerateContentResponse :=
  let text := firstChoiceText completion
  { candidates := [{ content := { role := "model", parts := [{ text := text }] } }],
    usageMetadata := some { totalTokens := completion.usage.bind OpenAIUsage.total_tokens } }

/-- Embeds `generateContentStream` from openaiProvider.ts. The backend
stream is the `stream` oracle argument (its finite list of delta chunks, in
arrival order); the returned async generator yields, per backend chunk, one
response wrapping `chunk.choices[0]?.delta?.content || ''` as a single text
part with role "model", and terminates when the backend stream ends. -/
def generateContentStream (_req : GenerateContentParameters)
    (stream : List ChunkB) : List GenerateContentResponse :=
  stream.map fun chunk =>
    { candidates :=
        [{ content := { role := "model",
                        parts := [{ text := streamChunkText chunk }] } }] }

/-- Embeds `countTokens` from openaiProvider.ts: unconditionally throws. -/
def countTokens (_req : CountTokensParameters) : Except String CountTokensResponse :=
  Except.error "countTokens is not implemented for OpenAI provider"

end Openai

/-! ## claudeProvider.ts -/

namespace Claude

/-- Embeds the per-item mapping of `toAnthropicMessages` from
claudeProvider.ts: a string item becomes a user message; an object item
keeps its role (absent stays absent) and flattens its parts with
`.map(p => typeof p === 'string' ? p : p.text || '').join('')`. -/
def mapItem (item : ContentItem) : ChatMessage :=
  match item with
  | .str s => { role := some "user", content := s }
  | .obj c =>
      { role := c.role,
        content := String.join ((c.parts.getD []).map partText) }

/-- Embeds `toAnthropicMessages(contents)` from claudeProvider.ts:
`Array.isArray(contents) ? contents : contents ? [contents] : []` then the
item-wise mapping; undefined and the (falsy) empty string yield no
messages. -/
def toAnthropicMessages (contents : ContentListUnion) : List ChatMessage :=
  match contents with
  | .undef => []
  | .str s =>
      if s = "" then [] else [{ role := some "user", content := s }]
  | .one c => [mapItem (.obj c)]
  | .list items => items.map mapItem

/-- The generator state created by `createProvider` in claudeProvider.ts. -/
structure Generator where
  apiKey : String
deriving DecidableEq, Repr

/-- Embeds `createProvider` from claudeProvider.ts:
`const apiKey = config.apiKey || process.env.ANTHROPIC_API_KEY;` then
`if (!apiKey) throw new Error('ANTHROPIC_API_KEY is required for Claude
provider');`. -/
def createProvider (envKey : Option String) (config : ContentGeneratorConfig) :
    Except String Generator :=
  let apiKey := jsOrStr config.apiKey envKey
  if truthyStr apiKey then Except.ok { apiKey := apiKey.getD "" }
  else Except.error "ANTHROPIC_API_KEY is required for Claude provider"

/-- The Anthropic usage block the backend reports (per-direction token
counts); the adapter never reads it. -/
structure AnthropicUsage where
  input_tokens : Nat := 0
  output_tokens : Nat := 0
deriving DecidableEq, Repr

structure AnthropicBlock where
  text : Option String := none
deriving DecidableEq, Repr

/-- The Anthropic single-shot completion reply. -/
structure AnthropicCompletion where
  content : Option (List AnthropicBlock) := none
  usage : Option AnthropicUsage := none
deriving DecidableEq, Repr

/-- Embeds `generateContent` from claudeProvider.ts. Wire messages are
`toAnthropicMessages req.contents`; the backend reply is the oracle
argument. Translation back: `text = completion.content?.[0]?.text || ''`,
one candidate with role "model" and a single text part. The returned object
literal has no usageMetadata key: the backend usage block is dropped. -/
def generateContent (_req : GenerateContentParameters)
    (completion : AnthropicCompletion) : GenerateContentResponse :=
  let text :=
    match completion.content with
    | none => ""
    | some blocks =>
      match blocks.head? with
      | none => ""
      | some b => b.text.getD ""
  { candidates := [{ content := { role := "model", parts := [{ text := text }] } }] }

/-- Embeds `generateContentStream` from claudeProvider.ts: unconditionally
throws. -/
def generateContentStream (_req : GenerateContentParameters) :
    Except String (List GenerateContentResponse) :=
  Except.error "Streaming not implemented for Claude provider"

/-- Embeds `countTokens` from claudeProvider.ts: unconditionally throws. -/
def countTokens (_req : CountTokensParameters) : Except String CountTokensResponse :=
  Except.error "countTokens is not implemented for Claude provider"

/-- Embeds `embedContent` from claudeProvider.ts: unconditionally throws. -/
def embedContent (_req : EmbedContentParameters) : Except String EmbedContentResponse :=
  Except.error "embedContent is not implemented for Claude provider"

end Claude

/-! ## grokProvider.ts (a stub: no key check, no backend client; every
operation throws a generic error). -/

namespace Grok

inductive Generator where
  | mk
deriving DecidableEq, Repr

/-- Embeds `createProvider` from grokProvider.ts: it ignores the config
entirely (no API-key resolution, no check, no client construction) and
returns the stub generator. Construction never fails. -/
def createProvider (_config : ContentGeneratorConfig) : Except String Generator :=
  Except.ok Generator.mk

/-- Embeds `generateContent` from grokProvider.ts: unconditionally throws
the generic message. -/
def generateContent (_req : GenerateContentParameters) :
    Except String GenerateContentResponse :=
  Except.error "Provider not implemented"

/-- Embeds `generateContentStream` from grokProvider.ts. -/
def generateContentStream (_req : GenerateContentParameters) :
    Except String (List GenerateContentResponse) :=
  Except.error "Provider not implemented"

/-- Embeds `countTokens` from grokProvider.ts. -/
def countTokens (_req : CountTokensParameters) : Except String CountTokensResponse :=
  Except.error "Provider not implemented"

/-- Embeds `embedContent` from grokProvider.ts. -/
def embedContent (_req : EmbedContentParameters) : Except String EmbedContentResponse :=
  Except.error "Provider not implemented"

end Grok

/-! ## The OpenAI-compatible clone adapter (the source file with the
Content[]-typed translator). -/

namespace Compat

/-- Embeds `toOpenAIMessages` from the clone file, per item:
`{ role: c.role, content: c.parts?.map(p => p.text || '').join('') ?? '' }`.
A runtime bare-string item has no role and no parts fields, so it maps to a
role-less message with empty content; a part that is a runtime string has no
text field, so it contributes the empty string. -/
def mapItem (item : ContentItem) : ChatMessage :=
  match item with
  | .str _ => { role := none, content := "" }
  | .obj c =>
      { role := c.role,
        content :=
          match c.parts with
          | some ps => String.join (ps.map fun p =>
              match p with
              | .str _ => ""
              | .part t => t.getD "")
          | none => "" }

/-- Embeds `toOpenAIMessages(contents)` from the clone file: a plain
`contents.map(...)` over the list. -/
def toOpenAIMessages (contents : List ContentItem) : List ChatMessage :=
  contents.map mapItem

/-- The generator state created by the clone's `createProvider`. -/
structure Generator where
  apiKey : String
deriving DecidableEq, Repr

/-- Embeds `createProvider` from the clone file: identical key resolution
and error to openaiProvider.ts. -/
def createProvider (envKey : Option String) (config : ContentGeneratorConfig) :
    Except String Generator :=
  let apiKey := jsOrStr config.apiKey envKey
  if truthyStr apiKey then Except.ok { apiKey := apiKey.getD "" }
  else Except.error "OPENAI_API_KEY is required for OpenAI provider"

/-- Embeds the clone's `generateContent` response translation (identical to
openaiProvider.ts: one role-"model" candidate wrapping the first choice's
text, usage total passed through). -/
def generateContent (_req : GenerateContentParameters)
    (completion : ChatCompletion) : GenerateContentResponse :=
  let text := firstChoiceText completion
  { candidates := [{ content := { role := "model", parts := [{ text := text }] } }],
    usageMetadata := some { totalTokens := completion.usage.bind OpenAIUsage.total_tokens } }

end Compat

/-! ## googleGenaiProvider.ts (primary adapter) -/

namespace GoogleGenai

/-- The GoogleGenAI client as constructed by googleGenaiProvider.ts. -/
structure Client where
  apiKey : Option String
  vertexai : Option Bool
deriving DecidableEq, Repr

/-- Embeds `createProvider` from googleGenaiProvider.ts: constructs the
client with `apiKey: config.apiKey === '' ? undefined : config.apiKey` and
`vertexai: config.vertexai`, and returns its models surface. No key check,
no throwing path. -/
def createProvider (config : ContentGeneratorConfig) : Client :=
  { apiKey :=
      match config.apiKey with
      | some s => if s = "" then none else some s
      | none => none,
    vertexai := config.vertexai }

end GoogleGenai

/-! ## Helper notions used by the theorems -/

/-- The environment key(s) the resolution reads for a given auth mode,
already normalized by `envOr` (the managed modes read none; the vertex mode
additionally reads project and location, captured separately below). -/
def selectedModeKey (env : Env) (mode : AuthType) : Option String :=
  match mode with
  | .LOGIN_WITH_GOOGLE => none
  | .CLOUD_SHELL => none
  | .USE_GEMINI => envOr env.GEMINI_API_KEY
  | .USE_OPENAI => envOr env.OPENAI_API_KEY
  | .USE_CLAUDE => envOr env.ANTHROPIC_API_KEY
  | .USE_GROK => envOr env.GROK_API_KEY
  | .USE_DOUBAO => envOr env.DOUBAO_API_KEY
  | .USE_QWEN => envOr env.QWEN_API_KEY
  | .USE_KIMI => envOr env.KIMI_API_KEY
  | .USE_DEEPSEEK => envOr env.DEEPSEEK_API_KEY
  | .USE_VERTEX_AI => envOr env.GOOGLE_API_KEY

/-- Two environments agree on every variable the selected auth mode reads
(all variables are unconstrained for the managed modes and for an absent
mode). -/
def agreesOnSelectedKeys (mode : Option AuthType) (e1 e2 : Env) : Prop :=
  match mode with
  | some .USE_GEMINI => e1.GEMINI_API_KEY = e2.GEMINI_API_KEY
  | some .USE_OPENAI => e1.OPENAI_API_KEY = e2.OPENAI_API_KEY
  | some .USE_CLAUDE => e1.ANTHROPIC_API_KEY = e2.ANTHROPIC_API_KEY
  | some .USE_GROK => e1.GROK_API_KEY = e2.GROK_API_KEY
  | some .USE_DOUBAO => e1.DOUBAO_API_KEY = e2.DOUBAO_API_KEY
  | some .USE_QWEN => e1.QWEN_API_KEY = e2.QWEN_API_KEY
  | some .USE_KIMI => e1.KIMI_API_KEY = e2.KIMI_API_KEY
  | some .USE_DEEPSEEK => e1.DEEPSEEK_API_KEY = e2.DEEPSEEK_API_KEY
  | some .USE_VERTEX_AI =>
      e1.GOOGLE_API_KEY = e2.GOOGLE_API_KEY ∧
      e1.GOOGLE_CLOUD_PROJECT = e2.GOOGLE_CLOUD_PROJECT ∧
      e1.GOOGLE_CLOUD_LOCATION = e2.GOOGLE_CLOUD_LOCATION
  | some .LOGIN_WITH_GOOGLE => True
  | some .CLOUD_SHELL => True
  | none => True

/-! ## C2 -/

/-- C2: for every provider tag outside the closed enumeration, the factory
rejects with an error naming that tag; the dispatch reaches the throwing
default case without delegating to any provider constructor, so no backend
client is constructed. -/
theorem createContentGenerator_unknown_tag_errors
    (tag : String) (cfg : ContentGeneratorConfig)
    (hmem : tag ∉ knownProviderTags) (hp : cfg.provider = some tag) :
    createContentGenerator cfg =
      Except.error
        ("Error creating contentGenerator: Unsupported provider: " ++ tag) := by
  simp only [knownProviderTags, List.mem_cons, List.not_mem_nil, or_false,
    not_or] at hmem
  obtain ⟨h1, h2, h3, h4, h5, h6, h7, h8⟩ := hmem
  simp [createContentGenerator, hp, h1, h2, h3, h4, h5, h6, h7, h8]

/-- Witness for C2 at the tag "mistral". -/
theorem createContentGenerator_unknown_tag_errors_witness :
    createContentGenerator { model := "m", provider := some "mistral" } =
      Except.error
        "Error creating contentGenerator: Unsupported provider: mistral" :=
  createContentGenerator_unknown_tag_errors "mistral"
    { model := "m", provider := some "mistral" } (by decide) rfl

/-! ## C10 -/

/-- C10: a config with an absent provider field is dispatched exactly as if
the provider were "gemini": under the managed auth modes the factory hands
off to the external Code Assist generator, otherwise it delegates to the
Google GenAI (primary) adapter constructor; in neither case does it fail. -/
theorem absent_provider_dispatches_as_gemini
    (cfg : ContentGeneratorConfig) (hp : cfg.provider = none) :
    createContentGenerator cfg =
      createContentGenerator { cfg with provider := some "gemini" } ∧
    ((cfg.authType = some AuthType.LOGIN_WITH_GOOGLE ∨
      cfg.authType = some AuthType.CLOUD_SHELL) →
      createContentGenerator cfg = Except.ok Dispatched.codeAssist) ∧
    ((cfg.authType ≠ some AuthType.LOGIN_WITH_GOOGLE ∧
      cfg.authType ≠ some AuthType.CLOUD_SHELL) →
      createContentGenerator cfg = Except.ok Dispatched.googleGenai) := by
  refine ⟨?_, ?_, ?_⟩
  · simp [createContentGenerator, hp]
  · intro h
    simp [createContentGenerator, hp, h]
  · intro h
    simp [createContentGenerator, hp, h.1, h.2]

/-- Witness for C10: an otherwise-empty config (provider and authType both
absent) yields the primary adapter delegation. -/
theorem absent_provider_dispatches_as_gemini_witness :
    createContentGenerator { model := "m" } = Except.ok Dispatched.googleGenai :=
  (absent_provider_dispatches_as_gemini { model := "m" } rfl).2.2 (by decide)

/-! ## C3 -/

/-- C3: config resolution never fails (it is a total function in this
embedding, matching the source's absence of any throwing path). For the
managed modes it returns the bare config immediately, validating no key; for
every key-based mode whose selected environment key is absent the returned
config simply omits the apiKey field. -/
theorem createContentGeneratorConfig_never_fails_defers_key
    (env : Env) (cm cp : Option String) :
    (createContentGeneratorConfig env cm cp (some AuthType.LOGIN_WITH_GOOGLE) =
      { model := jsOrDefault cm DEFAULT_GEMINI_MODEL,
        authType := some AuthType.LOGIN_WITH_GOOGLE, proxy := cp }) ∧
    (createContentGeneratorConfig env cm cp (some AuthType.CLOUD_SHELL) =
      { model := jsOrDefault cm DEFAULT_GEMINI_MODEL,
        authType := some AuthType.CLOUD_SHELL, proxy := cp }) ∧
    (∀ mode : AuthType, selectedModeKey env mode = none →
      (createContentGeneratorConfig env cm cp (some mode)).apiKey = none) := by
  refine ⟨rfl, rfl, ?_⟩
  intro mode h
  cases mode <;> simp [selectedModeKey] at h ⊢ <;>
    simp [createContentGeneratorConfig, h] <;>
    first
      | rfl
      | (split <;> rfl)

/-- Witness for C3: with every environment variable absent, USE_OPENAI
resolution returns a config omitting the apiKey. -/
theorem createContentGeneratorConfig_never_fails_defers_key_witness :
    (createContentGeneratorConfig {} none none (some AuthType.USE_OPENAI)).apiKey =
      none :=
  (createContentGeneratorConfig_never_fails_defers_key {} none none).2.2
    AuthType.USE_OPENAI rfl

/-! ## C9 -/

/-- C9: the resolved config depends only on the environment variables of the
auth mode actually selected — two environments that agree on the selected
mode's key(s) (with the same model and proxy inputs) resolve to equal
configs, however the other providers' key variables differ. -/
theorem resolveConfig_reads_only_selected_keys
    (mode : Option AuthType) (e1 e2 : Env) (cm cp : Option String)
    (h : agreesOnSelectedKeys mode e1 e2) :
    createContentGeneratorConfig e1 cm cp mode =
      createContentGeneratorConfig e2 cm cp mode := by
  cases mode with
  | none => rfl
  | some m =>
    cases m
    case LOGIN_WITH_GOOGLE => rfl
    case CLOUD_SHELL => rfl
    all_goals
      simp only [agreesOnSelectedKeys] at h
    case USE_VERTEX_AI =>
      simp [createContentGeneratorConfig, envOr, h.1, h.2.1, h.2.2]
    all_goals
      simp [createContentGeneratorConfig, envOr, h]

/-- Witness for C9: with USE_OPENAI selected, changing only the grok key
leaves the resolved config unchanged. -/
theorem resolveConfig_reads_only_selected_keys_witness :
    createContentGeneratorConfig { OPENAI_API_KEY := some "sk-1" } none none
        (some AuthType.USE_OPENAI) =
      createContentGeneratorConfig
        { OPENAI_API_KEY := some "sk-1", GROK_API_KEY := some "zzz" } none none
        (some AuthType.USE_OPENAI) :=
  resolveConfig_reads_only_selected_keys (some AuthType.USE_OPENAI)
    { OPENAI_API_KEY := some "sk-1" }
    { OPENAI_API_KEY := some "sk-1", GROK_API_KEY := some "zzz" }
    none none rfl

/-! ## Shared lemmas about the JS string fallback -/

lemma jsOrStr_of_truthy (a b : Option String) (h : truthyStr a = true) :
    jsOrStr a b = a := by
  cases a with
  | none => simp [truthyStr] at h
  | some s =>
    simp [truthyStr] at h
    simp [jsOrStr, h]

lemma jsOrStr_of_falsy (a b : Option String) (h : truthyStr a = false) :
    jsOrStr a b = b := by
  cases a with
  | none => rfl
  | some s =>
    simp [truthyStr] at h
    simp [jsOrStr, h]

/-! ## C1 -/

/-- C1 counterexample: the grok adapter is a non-primary
(chat-completion-style per the taxonomy) provider whose constructor performs
no API-key resolution at all — with no key in the config and none in the
environment, generator creation still succeeds instead of failing with a
provider-named error. -/
theorem grok_createProvider_succeeds_without_key :
    Grok.createProvider { model := "grok-2" } = Except.ok Grok.Generator.mk :=
  rfl

/-- C1 amended: the openai and claude adapters and the OpenAI-compatible
clone require a truthy API key, taking the explicit config value first and
the provider environment variable as fallback, and fail at creation time
with an error naming the provider's key variable when both are absent; the
grok adapter's constructor takes no key and always succeeds. -/
theorem chat_adapters_key_requirement (m : String) (ck ek : Option String) :
    (truthyStr ck = false → truthyStr ek = false →
      Openai.createProvider ek { model := m, apiKey := ck } =
        Except.error "OPENAI_API_KEY is required for OpenAI provider" ∧
      Claude.createProvider ek { model := m, apiKey := ck } =
        Except.error "ANTHROPIC_API_KEY is required for Claude provider" ∧
      Compat.createProvider ek { model := m, apiKey := ck } =
        Except.error "OPENAI_API_KEY is required for OpenAI provider") ∧
    (truthyStr ck = true →
      Openai.createProvider ek { model := m, apiKey := ck } =
        Except.ok { apiKey := ck.getD "" } ∧
      Claude.createProvider ek { model := m, apiKey := ck } =
        Except.ok { apiKey := ck.getD "" } ∧
      Compat.createProvider ek { model := m, apiKey := ck } =
        Except.ok { apiKey := ck.getD "" }) ∧
    (truthyStr ck = false → truthyStr ek = true →
      Openai.createProvider ek { model := m, apiKey := ck } =
        Except.ok { apiKey := ek.getD "" } ∧
      Claude.createProvider ek { model := m, apiKey := ck } =
        Except.ok { apiKey := ek.getD "" } ∧
      Compat.createProvider ek { model := m, apiKey := ck } =
        Except.ok { apiKey := ek.getD "" }) ∧
    Grok.createProvider { model := m, apiKey := ck } =
      Except.ok Grok.Generator.mk := by
  refine ⟨?_, ?_, ?_, rfl⟩
  · intro hck hek
    have hres : jsOrStr ck ek = ek := jsOrStr_of_falsy ck ek hck
    refine ⟨?_, ?_, ?_⟩ <;>
      simp [Openai.createProvider, Claude.createProvider, Compat.createProvider,
        hres, hek]
  · intro hck
    have hres : jsOrStr ck ek = ck := jsOrStr_of_truthy ck ek hck
    refine ⟨?_, ?_, ?_⟩ <;>
      simp [Openai.createProvider, Claude.createProvider, Compat.createProvider,
        hres, hck]
  · intro hck hek
    have hres : jsOrStr ck ek = ek := jsOrStr_of_falsy ck ek hck
    refine ⟨?_, ?_, ?_⟩ <;>
      simp [Openai.createProvider, Claude.createProvider, Compat.createProvider,
        hres, hek]

/-- Witness for C1 amended: with no key in config or environment, the openai
adapter rejects naming OPENAI_API_KEY. -/
theorem chat_adapters_key_requirement_witness :
    Openai.createProvider none { model := "gpt-4", apiKey := none } =
      Except.error "OPENAI_API_KEY is required for OpenAI provider" :=
  ((chat_adapters_key_requirement "gpt-4" none none).1 rfl rfl).1

/-! ## C4 -/

/-- C4 counterexample: the grok adapter's generateContent never returns a
response at all — at a concrete well-formed request it rejects, so it does
not produce a single role-"model" candidate. -/
theorem grok_generateContent_returns_no_candidate :
    Grok.generateContent { model := "grok-2", contents := ContentListUnion.str "hi" } =
      Except.error "Provider not implemented" := rfl

/-- C4 amended: for the chat-completion adapters that implement generation
(openai, claude, and the clone), generateContent yields exactly one
candidate with role "model" for every backend reply, and a backend reply
with no content yields a successful response whose single candidate carries
empty text. The grok stub, by contrast, always rejects. -/
theorem generateContent_single_model_candidate
    (req : GenerateContentParameters) (oc : ChatCompletion)
    (ac : Claude.AnthropicCompletion) :
    ((Openai.generateContent req oc).candidates.map (fun c => c.content.role) =
      ["model"]) ∧
    ((Claude.generateContent req ac).candidates.map (fun c => c.content.role) =
      ["model"]) ∧
    ((Compat.generateContent req oc).candidates.map (fun c => c.content.role) =
      ["model"]) ∧
    (Openai.generateContent req { choices := [] } =
      { candidates := [{ content := { role := "model", parts := [{ text := "" }] } }],
        usageMetadata := some { totalTokens := none } }) ∧
    (Claude.generateContent req {} =
      { candidates := [{ content := { role := "model", parts := [{ text := "" }] } }] }) :=
  ⟨rfl, rfl, rfl, rfl, rfl⟩

/-! ## C5 -/

/-- Text of the first part of the first candidate of a canonical response
(empty when absent). -/
def respText (r : GenerateContentResponse) : String :=
  match r.candidates.head? with
  | none => ""
  | some c =>
    match c.content.parts.head? with
    | none => ""
    | some p => p.text

/-- A backend stream chunk whose delta text is "Hel". -/
def chunkHel : ChunkB :=
  { choices := [{ delta := some { content := some "Hel" } }] }

/-- A backend stream chunk whose delta text is "lo". -/
def chunkLo : ChunkB :=
  { choices := [{ delta := some { content := some "lo" } }] }

/-- C5: the openai streaming adapter yields exactly one StreamChunk per
backend delta event, in stream order, each wrapping only that delta's
incremental text, and the sequence ends with the backend stream; on the
backend deltas ["Hel", "lo"] it yields exactly the texts "Hel" then "lo". -/
theorem generateContentStream_one_chunk_per_delta
    (req : GenerateContentParameters) (stream : List ChunkB) :
    ((Openai.generateContentStream req stream).map respText =
      stream.map streamChunkText) ∧
    ((Openai.generateContentStream req stream).length = stream.length) ∧
    ((Openai.generateContentStream req [chunkHel, chunkLo]).map respText =
      ["Hel", "lo"]) := by
  refine ⟨?_, ?_, rfl⟩
  · simp only [Openai.generateContentStream, List.map_map]
    rfl
  · simp [Openai.generateContentStream]

/-! ## C6 -/

/-- C6 counterexample: the claude translator maps a content item lacking a
role field to a message whose role is still absent, not "user". -/
theorem claude_translator_keeps_missing_role :
    Claude.mapItem (ContentItem.obj { parts := some [PartU.part (some "hi")] }) =
      { role := none, content := "hi" } := rfl

/-- C6 amended: in every translator, a turn's text parts are concatenated in
order with no separator and non-text or text-less parts degrade to the empty
string, never an error. A bare-string list item becomes a "user" message in
the openai and claude translators, but the Content[]-typed clone translator
maps it to a role-less message with empty content. An object lacking a role
field maps to a "user" message only in the openai translator (whose content
is then the JS stringification of the object); the claude and clone
translators keep the role absent. -/
theorem translator_edge_cases (s : String) (r t1 t2 : String)
    (ps : Option (List PartU)) :
    (Openai.mapItem (ContentItem.str s) = { role := some "user", content := s }) ∧
    (Claude.mapItem (ContentItem.str s) = { role := some "user", content := s }) ∧
    (Compat.mapItem (ContentItem.str s) = { role := none, content := "" }) ∧
    (Openai.mapItem (ContentItem.obj { role := none, parts := ps }) =
      { role := some "user", content := "[object Object]" }) ∧
    (Claude.mapItem (ContentItem.obj { role := none, parts := some [PartU.part (some t1)] }) =
      { role := none, content := t1 }) ∧
    (Openai.mapItem (ContentItem.obj
        { role := some r, parts := some [PartU.part (some t1), PartU.str t2] }) =
      { role := some r, content := t1 ++ t2 }) ∧
    (Claude.mapItem (ContentItem.obj
        { role := some r, parts := some [PartU.part (some t1), PartU.str t2] }) =
      { role := some r, content := t1 ++ t2 }) ∧
    (Compat.mapItem (ContentItem.obj
        { role := some r, parts := some [PartU.part (some t1), PartU.part (some t2)] }) =
      { role := some r, content := t1 ++ t2 }) ∧
    (partText (PartU.part none) = "") ∧
    (Openai.mapItem (ContentItem.obj
        { role := some r, parts := some [PartU.part (some "a"), PartU.part none,
                                         PartU.part (some "b")] }) =
      { role := some r, content := "ab" }) :=
  ⟨rfl, rfl, rfl, rfl, rfl, rfl, rfl, rfl, rfl, rfl⟩

/-! ## C7 -/

/-- C7 counterexample: the grok adapter's countTokens rejects with the
generic message "Provider not implemented", which does not name the grok
provider (neither "Grok" nor "grok" occurs in it). -/
theorem grok_error_message_names_no_provider :
    (Grok.countTokens { model := "m" } =
      Except.error "Provider not implemented") ∧
    ¬ List.IsInfix "Grok".toList "Provider not implemented".toList ∧
    ¬ List.IsInfix "grok".toList "Provider not implemented".toList :=
  ⟨rfl, by decide, by decide⟩

/-- C7 amended: countTokens fails for every chat-completion-style adapter,
and the openai and claude adapters' unsupported operations reject
immediately with messages naming the provider; the grok stub's four
operations also all reject immediately, but with the generic
"Provider not implemented" that names no provider. -/
theorem unsupported_ops_reject (r1 : CountTokensParameters)
    (r2 : GenerateContentParameters) (r3 : EmbedContentParameters) :
    (Openai.countTokens r1 =
      Except.error "countTokens is not implemented for OpenAI provider") ∧
    (Claude.countTokens r1 =
      Except.error "countTokens is not implemented for Claude provider") ∧
    (Claude.generateContentStream r2 =
      Except.error "Streaming not implemented for Claude provider") ∧
    (Claude.embedContent r3 =
      Except.error "embedContent is not implemented for Claude provider") ∧
    (Grok.countTokens r1 = Except.error "Provider not implemented") ∧
    (Grok.generateContent r2 = Except.error "Provider not implemented") ∧
    (Grok.generateContentStream r2 = Except.error "Provider not implemented") ∧
    (Grok.embedContent r3 = Except.error "Provider not implemented") :=
  ⟨rfl, rfl, rfl, rfl, rfl, rfl, rfl, rfl⟩

/-! ## C8 -/

/-- C8 counterexample: the claude adapter's generateContent drops the
backend usage block entirely — at a completion reporting usage (7 input and
35 output tokens) the canonical response carries no usage metadata. -/
theorem claude_generateContent_drops_usage :
    (Claude.generateContent { model := "claude-3" }
        { content := some [{ text := some "ok" }],
          usage := some { input_tokens := 7, output_tokens := 35 } }).usageMetadata =
      none := rfl

/-- C8 amended: the openai adapter and the clone pass the backend's reported
total-token count through as usageMetadata.totalTokens; the claude adapter
returns no usage metadata at all, whatever the backend reports. -/
theorem usage_passthrough_except_claude (req : GenerateContentParameters)
    (cs : List Choice) (u : OpenAIUsage) (ac : Claude.AnthropicCompletion) :
    ((Openai.generateContent req { choices := cs, usage := some u }).usageMetadata =
      some { totalTokens := u.total_tokens }) ∧
    ((Compat.generateContent req { choices := cs, usage := some u }).usageMetadata =
      some { totalTokens := u.total_tokens }) ∧
    ((Claude.generateContent req ac).usageMetadata = none) :=
  ⟨rfl, rfl, rfl⟩

end GeminiCLI
